import Mathlib

/-!
Verification of the MaseDB Python client library (src/client.py and
src/async_client.py) against its natural-language specification.

The two source files implement a thin HTTP client: request construction
(method, URL, headers, optional JSON body), response handling (decode a
2xx JSON body, map a non-2xx body to a typed error), and a handful of
convenience compositions (find_one, insert_one).  We embed the request
builders and the response handler of both the blocking client
(MaseDBClient) and the non-blocking client (AsyncMaseDBClient) as pure
Lean functions over a model of JSON values and HTTP responses, keeping
Python dictionary semantics (insertion-ordered association lists,
truthiness, membership and subscription with their dynamic-type errors)
explicit.

The embedding boundary is the transport session: the values passed to
session.request (method, url, headers, json body) and the response object
it yields (status, Content-Type header, body text, JSON parse of the
body) are the interface; the internals of the requests / aiohttp
libraries (connection pooling, the configured urllib3 retry adapter, any
headers the serializer itself adds) are below the boundary, exactly as
the remote server is.
-/

/-- Model of a JSON value, as produced by Python's json.loads.
Numbers are modelled as integers (no claim touches float payloads);
objects are insertion-ordered association lists, as Python dicts are. -/
inductive Json where
  | null
  | bool (b : Bool)
  | num (n : Int)
  | str (s : String)
  | arr (elems : List Json)
  | obj (fields : List (String × Json))

/-- Whether the first character list starts the second one. -/
def isPrefixChars : List Char → List Char → Bool
  | [], _ => true
  | _ :: _, [] => false
  | a :: as, b :: bs => a == b && isPrefixChars as bs

/-- Whether the first character list occurs contiguously in the second,
at any position including the very end (where only the empty pattern
matches). -/
def strContainsAux (pat : List Char) : List Char → Bool
  | [] => pat.isEmpty
  | c :: rest => isPrefixChars pat (c :: rest) || strContainsAux pat rest

/-- Python's substring test `pat in s` for strings: contiguous substring
containment, True for the empty pattern. -/
def strContains (s pat : String) : Bool :=
  strContainsAux pat.data s.data

/-- Python truthiness of a JSON value: None, False, 0, empty string,
empty list and empty dict are falsy, everything else truthy. -/
def Json.truthy : Json → Bool
  | .null => false
  | .bool b => b
  | .num n => n != 0
  | .str s => !s.isEmpty
  | .arr elems => !elems.isEmpty
  | .obj fields => !fields.isEmpty

/-- Python's `key in value` for a string key: dict membership for
objects, element equality for lists (a string compares equal only to an
equal string, so membership reduces to matching string elements),
substring test for strings, and a TypeError for null, booleans and
numbers (argument not iterable). -/
def pyContains : Json → String → Except String Bool
  | .obj fields, key => .ok (fields.any (fun p => p.1 == key))
  | .arr elems, key =>
    .ok (elems.any (fun e => match e with | .str s => s == key | _ => false))
  | .str s, key => .ok (strContains s key)
  | _, _ => .error "TypeError"

/-- Python's `value[key]` for a string key: dict lookup (KeyError when
absent); a TypeError on lists and strings (indices must be integers) and
on non-subscriptable values. -/
def pySubscript : Json → String → Except String Json
  | .obj fields, key =>
    match fields.find? (fun p => p.1 == key) with
    | some p => .ok p.2
    | none => .error "KeyError"
  | _, _ => .error "TypeError"

/-- Python's `value.get(key, default)`: defined only on dicts; on any
other value an AttributeError (no attribute get) is raised. -/
def pyGet (j : Json) (key : String) (dflt : Json) : Except String Json :=
  match j with
  | .obj fields =>
    match fields.find? (fun p => p.1 == key) with
    | some p => .ok p.2
    | none => .ok dflt
  | _ => .error "AttributeError"

/-- Python's `value[0]`: first element of a list (IndexError when
empty), first character of a string, KeyError on a dict whose keys are
strings, TypeError otherwise. -/
def pySubscriptZero : Json → Except String Json
  | .arr (x :: _) => .ok x
  | .arr [] => .error "IndexError"
  | .obj _ => .error "KeyError"
  | .str s =>
    match s.data with
    | c :: _ => .ok (.str (String.mk [c]))
    | [] => .error "IndexError"
  | _ => .error "TypeError"

/-- Python's `value or default` for an optional JSON argument, as in
`query or ` followed by an empty dict in list_documents / get_document:
the default when the argument is None or falsy, the argument itself
otherwise. -/
def pyOrElse (q : Option Json) (dflt : Json) : Json :=
  match q with
  | none => dflt
  | some v => if v.truthy then v else dflt

/-- Modelled from the spec: the repository's masedb/exceptions.py
(class MaseDBError) is not under src/.  Per the spec it is the single
error kind exposed to callers, parameterized by a human-readable
message, an optional machine error code and an optional structured
details mapping, stored as given.  The clients construct it either as
MaseDBError(message) or as MaseDBError(message, code, details); the
message slot receives whatever value the client passes (a JSON field
value in the structured case, a formatted string otherwise). -/
structure MaseDBError where
  message : Json
  code : Option Json
  details : Option Json

/-- Outcome of one client call: a returned value (Json.null models
Python's None), a raised MaseDBError, an uncaught ordinary Python
exception (TypeError, AttributeError, ...), or a transport-library
exception that escaped unwrapped. -/
inductive Outcome where
  | ok (v : Json)
  | err (e : MaseDBError)
  | pyExc (name : String)
  | transportExc (msg : String)

/-- Whether an outcome is a raised MaseDBError. -/
def Outcome.isMaseDBError : Outcome → Bool
  | .err _ => true
  | _ => false

/-- The response object delivered by the transport session: HTTP status,
the value of its Content-Type header (empty string when absent, as
headers.get with default), the body text, the result of parsing the body
as JSON (none models a ValueError from response.json()), and the text of
that ValueError (used in the protocol error message of the success
branch). -/
structure HttpResponse where
  status : Nat
  contentType : String
  body : String
  bodyJson : Option Json
  parseErrText : String

/-- A header dictionary: insertion-ordered, case-sensitive keys, exactly
as a Python dict of strings. -/
abbrev Headers := List (String × String)

/-- Python dict assignment d[k] = v: overwrite in place when the key is
present, append otherwise. -/
def dictSet (d : Headers) (k v : String) : Headers :=
  if d.any (fun p => p.1 == k) then
    d.map (fun p => if p.1 == k then (k, v) else p)
  else d ++ [(k, v)]

/-- Python dict.pop(k, None): remove the key when present. -/
def dictPop (d : Headers) (k : String) : Headers :=
  d.filter (fun p => p.1 != k)

/-- Python dict.get(k): the stored value, if any. -/
def dictGet? (d : Headers) (k : String) : Option String :=
  (d.find? (fun p => p.1 == k)).map (fun p => p.2)

/-- The request handed to the transport session: HTTP method, full URL,
the explicit headers dict built by _request, and the optional json=
body. -/
structure HttpRequest where
  method : String
  url : String
  headers : Headers
  jsonBody : Option Json

/-- Python's base_url.rstrip applied to the slash character: remove
every trailing slash, as both constructors do to base_url. -/
def rstripSlash (s : String) : String :=
  String.mk ((s.data.reverse.dropWhile (fun c => c == '/')).reverse)

/-- Whether a string ends with a slash character. -/
def endsWithSlash (s : String) : Bool :=
  s.data.getLast? == some '/'

/-- What the transport session yields for one dispatched request: a
delivered HTTP response, or a transport-level failure (connection
refused, DNS failure, timeout) raised as a requests.RequestException /
aiohttp.ClientError whose text is the given message. -/
inductive TransportResult where
  | response (r : HttpResponse)
  | failure (excMsg : String)

/-- The blocking client MaseDBClient (src/client.py): its per-instance
configuration, immutable after construction. -/
structure MaseDBClient where
  api_key : String
  BASE_URL : String

/-- MaseDBClient.__init__ (src/client.py lines 111-149): store the API
key and the base URL with every trailing slash removed. -/
def MaseDBClient.mkClient (api_key base_url : String) : MaseDBClient :=
  ⟨api_key, rstripSlash base_url⟩

/-- The non-blocking client AsyncMaseDBClient (src/async_client.py):
its per-instance configuration. -/
structure AsyncMaseDBClient where
  api_key : String
  BASE_URL : String

/-- AsyncMaseDBClient.__init__ (src/async_client.py lines 105-120):
store the API key and the base URL with every trailing slash removed. -/
def AsyncMaseDBClient.mkClient (api_key base_url : String) : AsyncMaseDBClient :=
  ⟨api_key, rstripSlash base_url⟩

/-- Request construction of MaseDBClient._request (src/client.py lines
194-217): url is BASE_URL followed by the endpoint; the caller-supplied
headers dict receives the API key and Accept entries; Content-Type is
set to application/json for POST and PUT and popped for every other
method; the json= body is passed through. -/
def MaseDBClient.buildRequest (c : MaseDBClient) (method endpoint : String)
    (callerHeaders : Headers) (jsonBody : Option Json) : HttpRequest :=
  let url := c.BASE_URL ++ endpoint
  let headers := dictSet callerHeaders "X-API-Key" c.api_key
  let headers := dictSet headers "Accept" "application/json"
  let headers :=
    if method == "POST" || method == "PUT" then
      dictSet headers "Content-Type" "application/json"
    else
      dictPop headers "Content-Type"
  ⟨method, url, headers, jsonBody⟩

/-- Request construction of AsyncMaseDBClient._request
(src/async_client.py lines 183-205): identical header and URL logic. -/
def AsyncMaseDBClient.buildRequest (c : AsyncMaseDBClient) (method endpoint : String)
    (callerHeaders : Headers) (jsonBody : Option Json) : HttpRequest :=
  let url := c.BASE_URL ++ endpoint
  let headers := dictSet callerHeaders "X-API-Key" c.api_key
  let headers := dictSet headers "Accept" "application/json"
  let headers :=
    if method == "POST" || method == "PUT" then
      dictSet headers "Content-Type" "application/json"
    else
      dictPop headers "Content-Type"
  ⟨method, url, headers, jsonBody⟩

/-- MaseDBClient._handle_response (src/client.py lines 151-192).
response.ok is status < 400.  Success branch: empty body returns None;
a non-JSON Content-Type or an unparseable body raises a protocol
MaseDBError; otherwise the parsed body is returned unchanged.  Failure
branch: when the Content-Type contains application/json and the body
parses and membership of the key error holds, the error object's
message / code / details fields (with their defaults) are raised as a
structured MaseDBError; a ValueError from parsing is swallowed; any
TypeError or AttributeError from the membership test, the subscription
or the get calls propagates uncaught; every remaining case raises the
generic MaseDBError built from the status and raw body. -/
def MaseDBClient.handleResponse (r : HttpResponse) : Outcome :=
  let body := r.body
  let contentType := r.contentType
  if r.status < 400 then
    if body.isEmpty then .ok .null
    else if !(strContains contentType "application/json") then
      .err ⟨.str ("Invalid response format: Expected JSON, got " ++ contentType), none, none⟩
    else
      match r.bodyJson with
      | some v => .ok v
      | none => .err ⟨.str ("Invalid JSON response: " ++ r.parseErrText), none, none⟩
  else
    let errorMessage :=
      "HTTP " ++ toString r.status ++ ": " ++
        (if body.isEmpty then "No response body" else body)
    if strContains contentType "application/json" then
      match r.bodyJson with
      | none => .err ⟨.str errorMessage, none, none⟩
      | some errorData =>
        match pyContains errorData "error" with
        | .error exc => .pyExc exc
        | .ok false => .err ⟨.str errorMessage, none, none⟩
        | .ok true =>
          match pySubscript errorData "error" with
          | .error exc => .pyExc exc
          | .ok errObj =>
            match pyGet errObj "message" (.str errorMessage) with
            | .error exc => .pyExc exc
            | .ok m =>
              match pyGet errObj "code" (.str "UNKNOWN_ERROR") with
              | .error exc => .pyExc exc
              | .ok cd =>
                match pyGet errObj "details" (.obj []) with
                | .error exc => .pyExc exc
                | .ok d => .err ⟨m, some cd, some d⟩
    else .err ⟨.str errorMessage, none, none⟩

/-- AsyncMaseDBClient._handle_response (src/async_client.py lines
140-181): the same logic, transcribed from the async source. -/
def AsyncMaseDBClient.handleResponse (r : HttpResponse) : Outcome :=
  let body := r.body
  let contentType := r.contentType
  if r.status < 400 then
    if body.isEmpty then .ok .null
    else if !(strContains contentType "application/json") then
      .err ⟨.str ("Invalid response format: Expected JSON, got " ++ contentType), none, none⟩
    else
      match r.bodyJson with
      | some v => .ok v
      | none => .err ⟨.str ("Invalid JSON response: " ++ r.parseErrText), none, none⟩
  else
    let errorMessage :=
      "HTTP " ++ toString r.status ++ ": " ++
        (if body.isEmpty then "No response body" else body)
    if strContains contentType "application/json" then
      match r.bodyJson with
      | none => .err ⟨.str errorMessage, none, none⟩
      | some errorData =>
        match pyContains errorData "error" with
        | .error exc => .pyExc exc
        | .ok false => .err ⟨.str errorMessage, none, none⟩
        | .ok true =>
          match pySubscript errorData "error" with
          | .error exc => .pyExc exc
          | .ok errObj =>
            match pyGet errObj "message" (.str errorMessage) with
            | .error exc => .pyExc exc
            | .ok m =>
              match pyGet errObj "code" (.str "UNKNOWN_ERROR") with
              | .error exc => .pyExc exc
              | .ok cd =>
                match pyGet errObj "details" (.obj []) with
                | .error exc => .pyExc exc
                | .ok d => .err ⟨m, some cd, some d⟩
    else .err ⟨.str errorMessage, none, none⟩

/-- Dispatch step of MaseDBClient._request (src/client.py lines
216-221): the session call and the response handling sit inside a
try block whose except clause catches requests.exceptions.
RequestException and re-raises MaseDBError with a Request failed
message; a delivered response goes through _handle_response, whose own
raised exceptions are not RequestExceptions and propagate. -/
def MaseDBClient.requestOutcome (t : TransportResult) : Outcome :=
  match t with
  | .response r => MaseDBClient.handleResponse r
  | .failure excMsg => .err ⟨.str ("Request failed: " ++ excMsg), none, none⟩

/-- Dispatch step of AsyncMaseDBClient._request (src/async_client.py
lines 205-206): the session call has no surrounding try block, so a
transport-library exception propagates to the caller unwrapped; a
delivered response goes through _handle_response. -/
def AsyncMaseDBClient.requestOutcome (t : TransportResult) : Outcome :=
  match t with
  | .response r => AsyncMaseDBClient.handleResponse r
  | .failure excMsg => .transportExc excMsg

/-- MaseDBClient.list_collections: GET /api/collections. -/
def MaseDBClient.list_collections_req (c : MaseDBClient) : HttpRequest :=
  c.buildRequest "GET" "/api/collections" [] none

/-- MaseDBClient.create_collection: POST /api/collections with the
name / description body. -/
def MaseDBClient.create_collection_req (c : MaseDBClient) (name description : String) : HttpRequest :=
  c.buildRequest "POST" "/api/collections" []
    (some (.obj [("name", .str name), ("description", .str description)]))

/-- MaseDBClient.get_collection: GET /api/collections/<name>. -/
def MaseDBClient.get_collection_req (c : MaseDBClient) (name : String) : HttpRequest :=
  c.buildRequest "GET" ("/api/collections/" ++ name) [] none

/-- MaseDBClient.delete_collection: DELETE /api/collections/<name>. -/
def MaseDBClient.delete_collection_req (c : MaseDBClient) (name : String) : HttpRequest :=
  c.buildRequest "DELETE" ("/api/collections/" ++ name) [] none

/-- MaseDBClient.list_documents: GET /api/<collection> with json body
`query or ` the empty dict. -/
def MaseDBClient.list_documents_req (c : MaseDBClient) (collection_name : String)
    (query : Option Json) : HttpRequest :=
  c.buildRequest "GET" ("/api/" ++ collection_name) [] (some (pyOrElse query (.obj [])))

/-- MaseDBClient.create_document: POST /api/<collection> with the
document as json body. -/
def MaseDBClient.create_document_req (c : MaseDBClient) (collection_name : String)
    (document : Json) : HttpRequest :=
  c.buildRequest "POST" ("/api/" ++ collection_name) [] (some document)

/-- MaseDBClient.insert_one delegates to create_document (src/client.py
line 269). -/
def MaseDBClient.insert_one_req (c : MaseDBClient) (collection_name : String)
    (document : Json) : HttpRequest :=
  c.create_document_req collection_name document

/-- MaseDBClient.get_document: GET /api/<collection>/<id> with json
body `query or ` the empty dict. -/
def MaseDBClient.get_document_req (c : MaseDBClient) (collection_name document_id : String)
    (query : Option Json) : HttpRequest :=
  c.buildRequest "GET" ("/api/" ++ collection_name ++ "/" ++ document_id) []
    (some (pyOrElse query (.obj [])))

/-- MaseDBClient.update_document: PUT /api/<collection>/<id> with the
update as json body. -/
def MaseDBClient.update_document_req (c : MaseDBClient) (collection_name document_id : String)
    (update : Json) : HttpRequest :=
  c.buildRequest "PUT" ("/api/" ++ collection_name ++ "/" ++ document_id) [] (some update)

/-- MaseDBClient.delete_document: DELETE /api/<collection>/<id>. -/
def MaseDBClient.delete_document_req (c : MaseDBClient) (collection_name document_id : String) : HttpRequest :=
  c.buildRequest "DELETE" ("/api/" ++ collection_name ++ "/" ++ document_id) [] none

/-- MaseDBClient.create_index: POST /api/collection/<collection>/index
with the fields list as body. -/
def MaseDBClient.create_index_req (c : MaseDBClient) (collection_name : String)
    (fields : List String) : HttpRequest :=
  c.buildRequest "POST" ("/api/collection/" ++ collection_name ++ "/index") []
    (some (.obj [("fields", .arr (fields.map .str))]))

/-- MaseDBClient.list_indexes: GET /api/collection/<collection>/index. -/
def MaseDBClient.list_indexes_req (c : MaseDBClient) (collection_name : String) : HttpRequest :=
  c.buildRequest "GET" ("/api/collection/" ++ collection_name ++ "/index") [] none

/-- MaseDBClient.start_transaction: POST /api/transaction with an empty
json body. -/
def MaseDBClient.start_transaction_req (c : MaseDBClient) : HttpRequest :=
  c.buildRequest "POST" "/api/transaction" [] (some (.obj []))

/-- MaseDBClient.commit_transaction: POST /api/transaction/<id>, no
body. -/
def MaseDBClient.commit_transaction_req (c : MaseDBClient) (transaction_id : String) : HttpRequest :=
  c.buildRequest "POST" ("/api/transaction/" ++ transaction_id) [] none

/-- MaseDBClient.rollback_transaction: POST
/api/transaction/<id>/rollback, no body. -/
def MaseDBClient.rollback_transaction_req (c : MaseDBClient) (transaction_id : String) : HttpRequest :=
  c.buildRequest "POST" ("/api/transaction/" ++ transaction_id ++ "/rollback") [] none

/-- MaseDBClient.get_transaction_status: GET /api/transaction/<id>. -/
def MaseDBClient.get_transaction_status_req (c : MaseDBClient) (transaction_id : String) : HttpRequest :=
  c.buildRequest "GET" ("/api/transaction/" ++ transaction_id) [] none

/-- MaseDBClient.get_stats: GET /api/stats. -/
def MaseDBClient.get_stats_req (c : MaseDBClient) : HttpRequest :=
  c.buildRequest "GET" "/api/stats" [] none

/-- MaseDBClient.get_detailed_stats: GET /api/stats/detailed. -/
def MaseDBClient.get_detailed_stats_req (c : MaseDBClient) : HttpRequest :=
  c.buildRequest "GET" "/api/stats/detailed" [] none

/-- MaseDBClient.find_one builds exactly the request of list_documents
(src/client.py line 248). -/
def MaseDBClient.find_one_req (c : MaseDBClient) (collection_name : String)
    (query : Option Json) : HttpRequest :=
  c.list_documents_req collection_name query

/-- The client-side selection of MaseDBClient.find_one (src/client.py
line 249): `results[0] if results else None` applied to the value
returned by list_documents. -/
def pyFirstOrNone (results : Json) : Outcome :=
  if results.truthy then
    match pySubscriptZero results with
    | .ok v => .ok v
    | .error exc => .pyExc exc
  else .ok .null

/-- MaseDBClient.find_one end to end: the outcome of the delegated
list_documents call, with the first-or-None selection applied to a
returned value and every raised exception propagated. -/
def MaseDBClient.find_one_result (t : TransportResult) : Outcome :=
  match MaseDBClient.requestOutcome t with
  | .ok results => pyFirstOrNone results
  | o => o

/-- MaseDBClient.create_document end to end is one _request call. -/
def MaseDBClient.create_document_result (t : TransportResult) : Outcome :=
  MaseDBClient.requestOutcome t

/-- MaseDBClient.insert_one end to end: the body of insert_one is a
single call to create_document (src/client.py line 269). -/
def MaseDBClient.insert_one_result (t : TransportResult) : Outcome :=
  MaseDBClient.create_document_result t

/-- AsyncMaseDBClient.list_collections: GET /api/collections. -/
def AsyncMaseDBClient.list_collections_req (c : AsyncMaseDBClient) : HttpRequest :=
  c.buildRequest "GET" "/api/collections" [] none

/-- AsyncMaseDBClient.create_collection: POST /api/collections with the
name / description body. -/
def AsyncMaseDBClient.create_collection_req (c : AsyncMaseDBClient) (name description : String) : HttpRequest :=
  c.buildRequest "POST" "/api/collections" []
    (some (.obj [("name", .str name), ("description", .str description)]))

/-- AsyncMaseDBClient.get_collection: GET /api/collections/<name>. -/
def AsyncMaseDBClient.get_collection_req (c : AsyncMaseDBClient) (name : String) : HttpRequest :=
  c.buildRequest "GET" ("/api/collections/" ++ name) [] none

/-- AsyncMaseDBClient.delete_collection: DELETE /api/collections/<name>. -/
def AsyncMaseDBClient.delete_collection_req (c : AsyncMaseDBClient) (name : String) : HttpRequest :=
  c.buildRequest "DELETE" ("/api/collections/" ++ name) [] none

/-- AsyncMaseDBClient.list_documents: GET /api/<collection> with json
body `query or ` the empty dict. -/
def AsyncMaseDBClient.list_documents_req (c : AsyncMaseDBClient) (collection_name : String)
    (query : Option Json) : HttpRequest :=
  c.buildRequest "GET" ("/api/" ++ collection_name) [] (some (pyOrElse query (.obj [])))

/-- AsyncMaseDBClient.create_document: POST /api/<collection> with the
document as json body. -/
def AsyncMaseDBClient.create_document_req (c : AsyncMaseDBClient) (collection_name : String)
    (document : Json) : HttpRequest :=
  c.buildRequest "POST" ("/api/" ++ collection_name) [] (some document)

/-- AsyncMaseDBClient.insert_one delegates to create_document
(src/async_client.py line 254). -/
def AsyncMaseDBClient.insert_one_req (c : AsyncMaseDBClient) (collection_name : String)
    (document : Json) : HttpRequest :=
  c.create_document_req collection_name document

/-- AsyncMaseDBClient.get_document: GET /api/<collection>/<id> with
json body `query or ` the empty dict. -/
def AsyncMaseDBClient.get_document_req (c : AsyncMaseDBClient) (collection_name document_id : String)
    (query : Option Json) : HttpRequest :=
  c.buildRequest "GET" ("/api/" ++ collection_name ++ "/" ++ document_id) []
    (some (pyOrElse query (.obj [])))

/-- AsyncMaseDBClient.update_document: PUT /api/<collection>/<id> with
the update as json body. -/
def AsyncMaseDBClient.update_document_req (c : AsyncMaseDBClient) (collection_name document_id : String)
    (update : Json) : HttpRequest :=
  c.buildRequest "PUT" ("/api/" ++ collection_name ++ "/" ++ document_id) [] (some update)

/-- AsyncMaseDBClient.delete_document: DELETE /api/<collection>/<id>. -/
def AsyncMaseDBClient.delete_document_req (c : AsyncMaseDBClient) (collection_name document_id : String) : HttpRequest :=
  c.buildRequest "DELETE" ("/api/" ++ collection_name ++ "/" ++ document_id) [] none

/-- AsyncMaseDBClient.create_index: POST
/api/collection/<collection>/index with the fields list as body. -/
def AsyncMaseDBClient.create_index_req (c : AsyncMaseDBClient) (collection_name : String)
    (fields : List String) : HttpRequest :=
  c.buildRequest "POST" ("/api/collection/" ++ collection_name ++ "/index") []
    (some (.obj [("fields", .arr (fields.map .str))]))

/-- AsyncMaseDBClient.list_indexes: GET
/api/collection/<collection>/index. -/
def AsyncMaseDBClient.list_indexes_req (c : AsyncMaseDBClient) (collection_name : String) : HttpRequest :=
  c.buildRequest "GET" ("/api/collection/" ++ collection_name ++ "/index") [] none

/-- AsyncMaseDBClient.start_transaction: POST /api/transaction with an
empty json body. -/
def AsyncMaseDBClient.start_transaction_req (c : AsyncMaseDBClient) : HttpRequest :=
  c.buildRequest "POST" "/api/transaction" [] (some (.obj []))

/-- AsyncMaseDBClient.commit_transaction: POST /api/transaction/<id>,
no body. -/
def AsyncMaseDBClient.commit_transaction_req (c : AsyncMaseDBClient) (transaction_id : String) : HttpRequest :=
  c.buildRequest "POST" ("/api/transaction/" ++ transaction_id) [] none

/-- AsyncMaseDBClient.rollback_transaction: POST
/api/transaction/<id>/rollback, no body. -/
def AsyncMaseDBClient.rollback_transaction_req (c : AsyncMaseDBClient) (transaction_id : String) : HttpRequest :=
  c.buildRequest "POST" ("/api/transaction/" ++ transaction_id ++ "/rollback") [] none

/-- AsyncMaseDBClient.get_transaction_status: GET
/api/transaction/<id>. -/
def AsyncMaseDBClient.get_transaction_status_req (c : AsyncMaseDBClient) (transaction_id : String) : HttpRequest :=
  c.buildRequest "GET" ("/api/transaction/" ++ transaction_id) [] none

/-- AsyncMaseDBClient.get_stats: GET /api/stats. -/
def AsyncMaseDBClient.get_stats_req (c : AsyncMaseDBClient) : HttpRequest :=
  c.buildRequest "GET" "/api/stats" [] none

/-- AsyncMaseDBClient.get_detailed_stats: GET /api/stats/detailed. -/
def AsyncMaseDBClient.get_detailed_stats_req (c : AsyncMaseDBClient) : HttpRequest :=
  c.buildRequest "GET" "/api/stats/detailed" [] none

/-- AsyncMaseDBClient.find_one builds exactly the request of
list_documents (src/async_client.py line 233). -/
def AsyncMaseDBClient.find_one_req (c : AsyncMaseDBClient) (collection_name : String)
    (query : Option Json) : HttpRequest :=
  c.list_documents_req collection_name query

/-- AsyncMaseDBClient.find_one end to end: the outcome of the
delegated list_documents call, with the first-or-None selection
(src/async_client.py line 234). -/
def AsyncMaseDBClient.find_one_result (t : TransportResult) : Outcome :=
  match AsyncMaseDBClient.requestOutcome t with
  | .ok results => pyFirstOrNone results
  | o => o

/-- AsyncMaseDBClient.create_document end to end is one _request
call. -/
def AsyncMaseDBClient.create_document_result (t : TransportResult) : Outcome :=
  AsyncMaseDBClient.requestOutcome t

/-- AsyncMaseDBClient.insert_one end to end: the body of insert_one is
a single call to create_document (src/async_client.py line 254). -/
def AsyncMaseDBClient.insert_one_result (t : TransportResult) : Outcome :=
  AsyncMaseDBClient.create_document_result t


/-- The guard of the generic error path of the failure branch of
_handle_response: the Content-Type does not announce JSON, or the body
does not parse, or the parsed value answers False to the membership
test of the key error (a dict without the key, a list without the
string, a string without the substring). -/
def fallsToGeneric (r : HttpResponse) : Bool :=
  !(strContains r.contentType "application/json") ||
    (match r.bodyJson with
     | none => true
     | some j =>
       match pyContains j "error" with
       | .ok false => true
       | _ => false)

theorem find?_map_overwrite (d : Headers) (k v : String)
    (hAny : d.any (fun p => p.1 == k) = true) :
    (d.map (fun p => if p.1 == k then (k, v) else p)).find? (fun p => p.1 == k)
      = some (k, v) := by
  induction d with
  | nil => simp at hAny
  | cons p d ih =>
    by_cases hp : (p.1 == k) = true
    · have : (if p.1 == k then (k, v) else p) = (k, v) := by rw [hp]; rfl
      rw [List.map_cons, this]
      exact List.find?_cons_of_pos _ (by simp)
    · have hp' : (p.1 == k) = false := by simpa using hp
      have hmap : (if p.1 == k then (k, v) else p) = p := by rw [hp']; rfl
      rw [List.map_cons, hmap, List.find?_cons_of_neg _ (by simp [hp'])]
      exact ih (by simpa [List.any_cons, hp'] using hAny)

theorem dictGet?_dictSet_self (d : Headers) (k v : String) :
    dictGet? (dictSet d k v) k = some v := by
  unfold dictSet dictGet?
  cases hAny : d.any (fun p => p.1 == k) with
  | false =>
    simp only [hAny, Bool.false_eq_true, if_false, List.find?_append]
    have hnone : d.find? (fun p => p.1 == k) = none := by
      rw [List.find?_eq_none]
      intro x hx hpx
      have : d.any (fun p => p.1 == k) = true := List.any_eq_true.mpr ⟨x, hx, hpx⟩
      rw [hAny] at this
      exact Bool.false_ne_true this
    simp [hnone]
  | true =>
    simp only [hAny, if_true]
    rw [find?_map_overwrite d k v hAny]
    rfl

theorem find?_map_overwrite_ne (d : Headers) (k k' v : String) (h : (k' == k) = false) :
    (d.map (fun p => if p.1 == k then (k, v) else p)).find? (fun p => p.1 == k')
      = d.find? (fun p => p.1 == k') := by
  induction d with
  | nil => rfl
  | cons p d ih =>
    by_cases hp : (p.1 == k) = true
    · have hp1 : p.1 = k := by rwa [beq_iff_eq] at hp
      have hmap : (if p.1 == k then (k, v) else p) = (k, v) := by rw [hp]; rfl
      have hkk' : (k == k') = false := by
        rw [beq_eq_false_iff_ne] at h ⊢
        exact fun e => h e.symm
      have hpk' : (p.1 == k') = false := by rw [hp1]; exact hkk'
      rw [List.map_cons, hmap,
        List.find?_cons_of_neg _ (by simp [hkk']),
        List.find?_cons_of_neg _ (by simp [hpk'])]
      exact ih
    · have hp' : (p.1 == k) = false := by simpa using hp
      have hmap : (if p.1 == k then (k, v) else p) = p := by rw [hp']; rfl
      rw [List.map_cons, hmap]
      by_cases hq : (p.1 == k') = true
      · rw [List.find?_cons_of_pos _ (by simp [hq]),
          List.find?_cons_of_pos _ (by simp [hq])]
      · have hq' : (p.1 == k') = false := by simpa using hq
        rw [List.find?_cons_of_neg _ (by simp [hq']),
          List.find?_cons_of_neg _ (by simp [hq'])]
        exact ih

theorem dictGet?_dictSet_ne (d : Headers) (k k' v : String) (h : (k' == k) = false) :
    dictGet? (dictSet d k v) k' = dictGet? d k' := by
  unfold dictSet dictGet?
  cases hAny : d.any (fun p => p.1 == k) with
  | false =>
    simp only [hAny, Bool.false_eq_true, if_false, List.find?_append]
    have : List.find? (fun p : String × String => p.1 == k') [(k, v)] = none := by
      have hkk' : (k == k') = false := by
        rw [beq_eq_false_iff_ne] at h ⊢
        exact fun e => h e.symm
      simp [List.find?_cons, hkk']
    rw [this]
    simp
  | true =>
    simp only [hAny, if_true]
    rw [find?_map_overwrite_ne d k k' v h]

theorem dictGet?_dictPop_self (d : Headers) (k : String) :
    dictGet? (dictPop d k) k = none := by
  unfold dictPop dictGet?
  induction d with
  | nil => rfl
  | cons p d ih =>
    by_cases hp : (p.1 == k) = true
    · have : (p.1 != k) = false := by simp [bne, hp]
      rw [List.filter_cons, this]
      simp only [Bool.false_eq_true, if_false]
      exact ih
    · have hp' : (p.1 == k) = false := by simpa using hp
      have : (p.1 != k) = true := by simp [bne, hp']
      rw [List.filter_cons, this]
      simp only [if_true]
      rw [List.find?_cons_of_neg _ (by simp [hp'])]
      exact ih

theorem dictGet?_dictPop_ne (d : Headers) (k k' : String) (h : (k' == k) = false) :
    dictGet? (dictPop d k) k' = dictGet? d k' := by
  unfold dictPop dictGet?
  induction d with
  | nil => rfl
  | cons p d ih =>
    by_cases hp : (p.1 == k) = true
    · have hp1 : p.1 = k := by rwa [beq_iff_eq] at hp
      have hfil : (p.1 != k) = false := by simp [bne, hp]
      have hpk' : (p.1 == k') = false := by
        rw [hp1]
        rw [beq_eq_false_iff_ne] at h ⊢
        exact fun e => h e.symm
      rw [List.filter_cons, hfil]
      simp only [Bool.false_eq_true, if_false]
      rw [List.find?_cons_of_neg _ (by simp [hpk'])]
      exact ih
    · have hp' : (p.1 == k) = false := by simpa using hp
      have hfil : (p.1 != k) = true := by simp [bne, hp']
      rw [List.filter_cons, hfil]
      simp only [if_true]
      by_cases hq : (p.1 == k') = true
      · rw [List.find?_cons_of_pos _ (by simp [hq]),
          List.find?_cons_of_pos _ (by simp [hq])]
      · have hq' : (p.1 == k') = false := by simpa using hq
        rw [List.find?_cons_of_neg _ (by simp [hq']),
          List.find?_cons_of_neg _ (by simp [hq'])]
        exact ih

theorem rstripSlash_append_slashes (s : String) (n : Nat) :
    rstripSlash (s ++ String.mk (List.replicate n '/')) = rstripSlash s := by
  unfold rstripSlash
  congr 1
  have hdata : (s ++ String.mk (List.replicate n '/')).data
      = s.data ++ List.replicate n '/' := by
    simp [String.data_append]
  rw [hdata, List.reverse_append, List.reverse_replicate]
  congr 1
  apply List.dropWhile_append_of_pos
  intro a ha
  have : a = '/' := List.eq_of_mem_replicate ha
  simp [this]

theorem endsWithSlash_rstripSlash (s : String) :
    endsWithSlash (rstripSlash s) = false := by
  have H := List.head?_dropWhile_not (fun c => c == '/') s.data.reverse
  unfold endsWithSlash rstripSlash
  rw [show (String.mk ((s.data.reverse.dropWhile (fun c => c == '/')).reverse)).data
      = (s.data.reverse.dropWhile (fun c => c == '/')).reverse from rfl]
  rw [List.getLast?_reverse]
  cases hh : (s.data.reverse.dropWhile (fun c => c == '/')).head? with
  | none => rfl
  | some c =>
    rw [hh] at H
    have H' : (c == '/') = false := H
    exact H'

theorem sync_buildRequest_headers_def (c : MaseDBClient)
    (method endpoint : String) (hd : Headers) (b : Option Json) :
    (c.buildRequest method endpoint hd b).headers =
      if method == "POST" || method == "PUT" then
        dictSet (dictSet (dictSet hd "X-API-Key" c.api_key) "Accept" "application/json")
          "Content-Type" "application/json"
      else
        dictPop (dictSet (dictSet hd "X-API-Key" c.api_key) "Accept" "application/json")
          "Content-Type" := rfl

theorem async_buildRequest_headers_def (c : AsyncMaseDBClient)
    (method endpoint : String) (hd : Headers) (b : Option Json) :
    (c.buildRequest method endpoint hd b).headers =
      if method == "POST" || method == "PUT" then
        dictSet (dictSet (dictSet hd "X-API-Key" c.api_key) "Accept" "application/json")
          "Content-Type" "application/json"
      else
        dictPop (dictSet (dictSet hd "X-API-Key" c.api_key) "Accept" "application/json")
          "Content-Type" := rfl

theorem sync_headers_apiKey (c : MaseDBClient)
    (method endpoint : String) (hd : Headers) (b : Option Json) :
    dictGet? (c.buildRequest method endpoint hd b).headers "X-API-Key" = some c.api_key := by
  rw [sync_buildRequest_headers_def]
  by_cases hc : (method == "POST" || method == "PUT") = true
  · rw [if_pos hc, dictGet?_dictSet_ne _ _ _ _ (by decide),
      dictGet?_dictSet_ne _ _ _ _ (by decide), dictGet?_dictSet_self]
  · rw [if_neg hc, dictGet?_dictPop_ne _ _ _ (by decide),
      dictGet?_dictSet_ne _ _ _ _ (by decide), dictGet?_dictSet_self]

theorem sync_headers_accept (c : MaseDBClient)
    (method endpoint : String) (hd : Headers) (b : Option Json) :
    dictGet? (c.buildRequest method endpoint hd b).headers "Accept"
      = some "application/json" := by
  rw [sync_buildRequest_headers_def]
  by_cases hc : (method == "POST" || method == "PUT") = true
  · rw [if_pos hc, dictGet?_dictSet_ne _ _ _ _ (by decide), dictGet?_dictSet_self]
  · rw [if_neg hc, dictGet?_dictPop_ne _ _ _ (by decide), dictGet?_dictSet_self]

theorem sync_headers_contentType_set (c : MaseDBClient)
    (method endpoint : String) (hd : Headers) (b : Option Json)
    (hc : (method == "POST" || method == "PUT") = true) :
    dictGet? (c.buildRequest method endpoint hd b).headers "Content-Type"
      = some "application/json" := by
  rw [sync_buildRequest_headers_def, if_pos hc, dictGet?_dictSet_self]

theorem sync_headers_contentType_absent (c : MaseDBClient)
    (method endpoint : String) (hd : Headers) (b : Option Json)
    (hc : (method == "POST" || method == "PUT") = false) :
    dictGet? (c.buildRequest method endpoint hd b).headers "Content-Type" = none := by
  rw [sync_buildRequest_headers_def,
    if_neg (by simp [hc]), dictGet?_dictPop_self]

theorem async_headers_apiKey (c : AsyncMaseDBClient)
    (method endpoint : String) (hd : Headers) (b : Option Json) :
    dictGet? (c.buildRequest method endpoint hd b).headers "X-API-Key" = some c.api_key := by
  rw [async_buildRequest_headers_def]
  by_cases hc : (method == "POST" || method == "PUT") = true
  · rw [if_pos hc, dictGet?_dictSet_ne _ _ _ _ (by decide),
      dictGet?_dictSet_ne _ _ _ _ (by decide), dictGet?_dictSet_self]
  · rw [if_neg hc, dictGet?_dictPop_ne _ _ _ (by decide),
      dictGet?_dictSet_ne _ _ _ _ (by decide), dictGet?_dictSet_self]

theorem async_headers_accept (c : AsyncMaseDBClient)
    (method endpoint : String) (hd : Headers) (b : Option Json) :
    dictGet? (c.buildRequest method endpoint hd b).headers "Accept"
      = some "application/json" := by
  rw [async_buildRequest_headers_def]
  by_cases hc : (method == "POST" || method == "PUT") = true
  · rw [if_pos hc, dictGet?_dictSet_ne _ _ _ _ (by decide), dictGet?_dictSet_self]
  · rw [if_neg hc, dictGet?_dictPop_ne _ _ _ (by decide), dictGet?_dictSet_self]

theorem async_headers_contentType_set (c : AsyncMaseDBClient)
    (method endpoint : String) (hd : Headers) (b : Option Json)
    (hc : (method == "POST" || method == "PUT") = true) :
    dictGet? (c.buildRequest method endpoint hd b).headers "Content-Type"
      = some "application/json" := by
  rw [async_buildRequest_headers_def, if_pos hc, dictGet?_dictSet_self]

theorem async_headers_contentType_absent (c : AsyncMaseDBClient)
    (method endpoint : String) (hd : Headers) (b : Option Json)
    (hc : (method == "POST" || method == "PUT") = false) :
    dictGet? (c.buildRequest method endpoint hd b).headers "Content-Type" = none := by
  rw [async_buildRequest_headers_def,
    if_neg (by simp [hc]), dictGet?_dictPop_self]

theorem handleResponse_async_eq (r : HttpResponse) :
    AsyncMaseDBClient.handleResponse r = MaseDBClient.handleResponse r := rfl

theorem MaseDBClient.handleResponse_ok_empty (r : HttpResponse)
    (h4 : r.status < 400) (hb : r.body.isEmpty = true) :
    MaseDBClient.handleResponse r = .ok .null := by
  simp only [MaseDBClient.handleResponse]
  rw [if_pos h4, if_pos hb]

theorem MaseDBClient.handleResponse_ok_json (r : HttpResponse) (v : Json)
    (h4 : r.status < 400) (hb : r.body.isEmpty = false)
    (hct : strContains r.contentType "application/json" = true)
    (hbj : r.bodyJson = some v) :
    MaseDBClient.handleResponse r = .ok v := by
  simp only [MaseDBClient.handleResponse]
  rw [if_pos h4, if_neg (by simp [hb]), if_neg (by simp [hct]), hbj]

theorem MaseDBClient.handleResponse_generic (r : HttpResponse)
    (h4 : ¬ r.status < 400) (hg : fallsToGeneric r = true) :
    MaseDBClient.handleResponse r =
      .err ⟨.str ("HTTP " ++ toString r.status ++ ": " ++
        (if r.body.isEmpty then "No response body" else r.body)), none, none⟩ := by
  simp only [MaseDBClient.handleResponse]
  rw [if_neg h4]
  unfold fallsToGeneric at hg
  cases hct : strContains r.contentType "application/json" with
  | false => rw [if_neg (by simp)]
  | true =>
    rw [if_pos rfl]
    rw [hct] at hg
    simp only [Bool.not_true, Bool.false_or] at hg
    cases hbj : r.bodyJson with
    | none => rfl
    | some j =>
      simp only [hbj] at hg
      cases hpc : pyContains j "error" with
      | error e =>
        simp only [hpc] at hg
        exact absurd hg (by simp)
      | ok bb =>
        cases bb with
        | true =>
          simp only [hpc] at hg
          exact absurd hg (by simp)
        | false => simp only [hpc]

theorem MaseDBClient.handleResponse_structured (r : HttpResponse)
    (fields efields : List (String × Json)) (m cd d : Json)
    (h4 : ¬ r.status < 400)
    (hct : strContains r.contentType "application/json" = true)
    (hbj : r.bodyJson = some (.obj fields))
    (herr : fields.find? (fun p => p.1 == "error") = some ("error", .obj efields))
    (hm : efields.find? (fun p => p.1 == "message") = some ("message", m))
    (hc : efields.find? (fun p => p.1 == "code") = some ("code", cd))
    (hdet : efields.find? (fun p => p.1 == "details") = some ("details", d)) :
    MaseDBClient.handleResponse r = .err ⟨m, some cd, some d⟩ := by
  have hany : fields.any (fun p => p.1 == "error") = true :=
    List.any_eq_true.mpr ⟨("error", .obj efields), List.mem_of_find?_eq_some herr, by simp⟩
  simp only [MaseDBClient.handleResponse]
  rw [if_neg h4, if_pos hct, hbj]
  simp only [pyContains, hany, pySubscript, herr, pyGet, hm, hc, hdet]

/-- C1 (amended): the blocking client catches every transport-level
failure raised while sending a request and re-raises it as a MaseDBError
with message Request failed followed by the transport message; the
non-blocking client has no such handler, so a transport failure
propagates to the caller as the raw transport exception, not as a
MaseDBError.  Delivered responses are handled by _handle_response in
both clients. -/
theorem transport_error_handling_amended (msg : String) (r : HttpResponse) :
    MaseDBClient.requestOutcome (.failure msg)
      = .err ⟨.str ("Request failed: " ++ msg), none, none⟩ ∧
    Outcome.isMaseDBError (MaseDBClient.requestOutcome (.failure msg)) = true ∧
    AsyncMaseDBClient.requestOutcome (.failure msg) = .transportExc msg ∧
    Outcome.isMaseDBError (AsyncMaseDBClient.requestOutcome (.failure msg)) = false ∧
    MaseDBClient.requestOutcome (.response r) = MaseDBClient.handleResponse r ∧
    AsyncMaseDBClient.requestOutcome (.response r) = AsyncMaseDBClient.handleResponse r :=
  ⟨rfl, rfl, rfl, rfl, rfl, rfl⟩

/-- C1 (counterexample): a transport failure in the non-blocking client
propagates as the raw transport exception and is not re-raised as a
MaseDBError, refuting the claim that both clients wrap every
transport-level failure. -/
theorem async_transport_error_unwrapped_cex :
    AsyncMaseDBClient.requestOutcome (.failure "Cannot connect to host masedb.maseai.online:443")
      = .transportExc "Cannot connect to host masedb.maseai.online:443" ∧
    Outcome.isMaseDBError (AsyncMaseDBClient.requestOutcome
      (.failure "Cannot connect to host masedb.maseai.online:443")) = false :=
  ⟨rfl, rfl⟩

/-- C2: in both clients a POST or PUT request carries
Content-Type: application/json and a GET or DELETE request carries no
Content-Type header at all, including the GET requests of
list_documents and get_document, which do carry a JSON-encoded query
body. -/
theorem content_type_header_policy (c : MaseDBClient) (a : AsyncMaseDBClient)
    (method endpoint coll docId : String) (hd : Headers) (b q : Option Json) :
    ((method = "POST" ∨ method = "PUT") →
      dictGet? (c.buildRequest method endpoint hd b).headers "Content-Type"
          = some "application/json" ∧
      dictGet? (a.buildRequest method endpoint hd b).headers "Content-Type"
          = some "application/json") ∧
    ((method = "GET" ∨ method = "DELETE") →
      dictGet? (c.buildRequest method endpoint hd b).headers "Content-Type" = none ∧
      dictGet? (a.buildRequest method endpoint hd b).headers "Content-Type" = none) ∧
    dictGet? (c.list_documents_req coll q).headers "Content-Type" = none ∧
    (c.list_documents_req coll q).jsonBody = some (pyOrElse q (.obj [])) ∧
    dictGet? (c.get_document_req coll docId q).headers "Content-Type" = none ∧
    (c.get_document_req coll docId q).jsonBody = some (pyOrElse q (.obj [])) ∧
    dictGet? (a.list_documents_req coll q).headers "Content-Type" = none ∧
    (a.list_documents_req coll q).jsonBody = some (pyOrElse q (.obj [])) ∧
    dictGet? (a.get_document_req coll docId q).headers "Content-Type" = none ∧
    (a.get_document_req coll docId q).jsonBody = some (pyOrElse q (.obj [])) := by
  refine ⟨?_, ?_, ?_, rfl, ?_, rfl, ?_, rfl, ?_, rfl⟩
  · intro h
    have hcond : (method == "POST" || method == "PUT") = true := by
      rcases h with h | h <;> rw [h] <;> rfl
    exact ⟨sync_headers_contentType_set c method endpoint hd b hcond,
      async_headers_contentType_set a method endpoint hd b hcond⟩
  · intro h
    have hcond : (method == "POST" || method == "PUT") = false := by
      rcases h with h | h <;> rw [h] <;> rfl
    exact ⟨sync_headers_contentType_absent c method endpoint hd b hcond,
      async_headers_contentType_absent a method endpoint hd b hcond⟩
  · exact sync_headers_contentType_absent c "GET" ("/api/" ++ coll) []
      (some (pyOrElse q (.obj []))) rfl
  · exact sync_headers_contentType_absent c "GET"
      ("/api/" ++ coll ++ "/" ++ docId) [] (some (pyOrElse q (.obj []))) rfl
  · exact async_headers_contentType_absent a "GET" ("/api/" ++ coll) []
      (some (pyOrElse q (.obj []))) rfl
  · exact async_headers_contentType_absent a "GET"
      ("/api/" ++ coll ++ "/" ++ docId) [] (some (pyOrElse q (.obj []))) rfl

/-- C2 (witness): a POST request of the blocking client carries
Content-Type application/json and a GET request carries none. -/
theorem content_type_header_policy_witness :
    dictGet? ((MaseDBClient.mkClient "key" "https://masedb.maseai.online").buildRequest
        "POST" "/api/collections" [] none).headers "Content-Type" = some "application/json" ∧
    dictGet? ((MaseDBClient.mkClient "key" "https://masedb.maseai.online").buildRequest
        "GET" "/api/collections" [] none).headers "Content-Type" = none :=
  ⟨((content_type_header_policy (MaseDBClient.mkClient "key" "https://masedb.maseai.online")
        (AsyncMaseDBClient.mkClient "key" "https://masedb.maseai.online")
        "POST" "/api/collections" "users" "d1" [] none none).1 (Or.inl rfl)).1,
    ((content_type_header_policy (MaseDBClient.mkClient "key" "https://masedb.maseai.online")
        (AsyncMaseDBClient.mkClient "key" "https://masedb.maseai.online")
        "GET" "/api/collections" "users" "d1" [] none none).2.1 (Or.inl rfl)).1⟩

/-- C3 (amended): for every response whose status is at least 400 (the
failure test of both clients is response.ok, that is status below 400)
whose Content-Type announces JSON and whose body parses to an object
with a top-level error object containing message, code and details
fields, both clients raise a MaseDBError whose message, code and
details equal those three body fields exactly. -/
theorem structured_error_fields_amended (r : HttpResponse)
    (fields efields : List (String × Json)) (m cd d : Json)
    (hs : 400 ≤ r.status)
    (hct : strContains r.contentType "application/json" = true)
    (hbj : r.bodyJson = some (.obj fields))
    (herr : fields.find? (fun p => p.1 == "error") = some ("error", .obj efields))
    (hm : efields.find? (fun p => p.1 == "message") = some ("message", m))
    (hc : efields.find? (fun p => p.1 == "code") = some ("code", cd))
    (hdet : efields.find? (fun p => p.1 == "details") = some ("details", d)) :
    MaseDBClient.handleResponse r = .err ⟨m, some cd, some d⟩ ∧
    AsyncMaseDBClient.handleResponse r = .err ⟨m, some cd, some d⟩ := by
  have h4 : ¬ r.status < 400 := by omega
  exact ⟨MaseDBClient.handleResponse_structured r fields efields m cd d h4 hct hbj herr hm hc hdet,
    (handleResponse_async_eq r).trans
      (MaseDBClient.handleResponse_structured r fields efields m cd d h4 hct hbj herr hm hc hdet)⟩

/-- C3 (counterexample): a 300 response is not 2xx, yet both clients
treat it as success (the success test is status below 400) and return
the parsed error document instead of raising the structured MaseDBError
the claim requires. -/
theorem structured_error_ignored_below_400_cex :
    MaseDBClient.handleResponse ⟨300, "application/json",
        "\x7b\"error\": \x7b\"message\": \"no such doc\", \"code\": \"NOT_FOUND\", \"details\": \x7b\x7d\x7d\x7d",
        some (.obj [("error", .obj [("message", .str "no such doc"),
          ("code", .str "NOT_FOUND"), ("details", .obj [])])]), ""⟩
      = .ok (.obj [("error", .obj [("message", .str "no such doc"),
          ("code", .str "NOT_FOUND"), ("details", .obj [])])]) ∧
    Outcome.isMaseDBError (MaseDBClient.handleResponse ⟨300, "application/json",
        "\x7b\"error\": \x7b\"message\": \"no such doc\", \"code\": \"NOT_FOUND\", \"details\": \x7b\x7d\x7d\x7d",
        some (.obj [("error", .obj [("message", .str "no such doc"),
          ("code", .str "NOT_FOUND"), ("details", .obj [])])]), ""⟩) = false :=
  ⟨rfl, rfl⟩

/-- C3 (witness): a 404 with a well-formed error body raises a
MaseDBError carrying exactly the body's message, code and details. -/
theorem structured_error_fields_witness :
    MaseDBClient.handleResponse ⟨404, "application/json",
        "\x7b\"error\": \x7b\"message\": \"no such doc\", \"code\": \"NOT_FOUND\", \"details\": \x7b\x7d\x7d\x7d",
        some (.obj [("error", .obj [("message", .str "no such doc"),
          ("code", .str "NOT_FOUND"), ("details", .obj [])])]), ""⟩
      = .err ⟨.str "no such doc", some (.str "NOT_FOUND"), some (.obj [])⟩ :=
  (structured_error_fields_amended ⟨404, "application/json",
      "\x7b\"error\": \x7b\"message\": \"no such doc\", \"code\": \"NOT_FOUND\", \"details\": \x7b\x7d\x7d\x7d",
      some (.obj [("error", .obj [("message", .str "no such doc"),
        ("code", .str "NOT_FOUND"), ("details", .obj [])])]), ""⟩
    [("error", .obj [("message", .str "no such doc"),
      ("code", .str "NOT_FOUND"), ("details", .obj [])])]
    [("message", .str "no such doc"), ("code", .str "NOT_FOUND"), ("details", .obj [])]
    (.str "no such doc") (.str "NOT_FOUND") (.obj [])
    (by decide) rfl rfl rfl rfl rfl rfl).1

/-- C4 (amended): for every response whose status is at least 400 and
which reaches the generic error path (Content-Type not JSON, or body
unparseable, or the membership test of the key error on the parsed
value answering False: a dict without the key, a list without the
string, a string without the substring), both clients raise a
MaseDBError whose message is HTTP status colon body, with
No response body substituted when the body is empty, and no code or
details. -/
theorem generic_error_message_amended (r : HttpResponse)
    (hs : 400 ≤ r.status) (hg : fallsToGeneric r = true) :
    MaseDBClient.handleResponse r =
      .err ⟨.str ("HTTP " ++ toString r.status ++ ": " ++
        (if r.body.isEmpty then "No response body" else r.body)), none, none⟩ ∧
    AsyncMaseDBClient.handleResponse r =
      .err ⟨.str ("HTTP " ++ toString r.status ++ ": " ++
        (if r.body.isEmpty then "No response body" else r.body)), none, none⟩ := by
  have h4 : ¬ r.status < 400 := by omega
  exact ⟨MaseDBClient.handleResponse_generic r h4 hg,
    (handleResponse_async_eq r).trans (MaseDBClient.handleResponse_generic r h4 hg)⟩

/-- C4 (counterexample): a 304 response (non-2xx) with a JSON body and
no error key is returned as a success instead of raising the generic
MaseDBError, and a 404 response whose JSON body is the bare number 5
(JSON without an error key) makes the membership test raise an uncaught
TypeError instead of the claimed MaseDBError with message HTTP 404
colon 5. -/
theorem generic_error_path_cex :
    MaseDBClient.handleResponse ⟨304, "application/json", "\x7b\x7d", some (.obj []), ""⟩
      = .ok (.obj []) ∧
    Outcome.isMaseDBError
      (MaseDBClient.handleResponse ⟨304, "application/json", "\x7b\x7d", some (.obj []), ""⟩)
      = false ∧
    MaseDBClient.handleResponse ⟨404, "application/json", "5", some (.num 5), ""⟩
      = .pyExc "TypeError" ∧
    Outcome.isMaseDBError
      (MaseDBClient.handleResponse ⟨404, "application/json", "5", some (.num 5), ""⟩)
      = false :=
  ⟨rfl, rfl, rfl, rfl⟩

/-- C4 (witness): a 503 response with empty body raises the generic
MaseDBError with the No response body substitution. -/
theorem generic_error_message_witness :
    MaseDBClient.handleResponse ⟨503, "", "", none, ""⟩
      = .err ⟨.str "HTTP 503: No response body", none, none⟩ :=
  (generic_error_message_amended ⟨503, "", "", none, ""⟩ (by decide) rfl).1

/-- C5: for every 2xx response, both clients return None when the body
is empty (never raising), and return the parsed JSON body unchanged
when the body is a JSON document served with a JSON Content-Type. -/
theorem success_response_passthrough (r : HttpResponse) (v : Json) :
    (200 ≤ r.status → r.status < 300 → r.body.isEmpty = true →
      MaseDBClient.handleResponse r = .ok .null ∧
      AsyncMaseDBClient.handleResponse r = .ok .null) ∧
    (200 ≤ r.status → r.status < 300 → r.body.isEmpty = false →
      strContains r.contentType "application/json" = true → r.bodyJson = some v →
      MaseDBClient.handleResponse r = .ok v ∧
      AsyncMaseDBClient.handleResponse r = .ok v) := by
  constructor
  · intro _ h3 hb
    have h4 : r.status < 400 := by omega
    exact ⟨MaseDBClient.handleResponse_ok_empty r h4 hb,
      (handleResponse_async_eq r).trans (MaseDBClient.handleResponse_ok_empty r h4 hb)⟩
  · intro _ h3 hb hct hbj
    have h4 : r.status < 400 := by omega
    exact ⟨MaseDBClient.handleResponse_ok_json r v h4 hb hct hbj,
      (handleResponse_async_eq r).trans (MaseDBClient.handleResponse_ok_json r v h4 hb hct hbj)⟩

/-- C5 (witness): a 200 JSON response is returned parsed and unchanged,
and a 204 with empty body returns None. -/
theorem success_response_passthrough_witness :
    MaseDBClient.handleResponse ⟨200, "application/json", "\x7b\x7d", some (.obj []), ""⟩
      = .ok (.obj []) ∧
    MaseDBClient.handleResponse ⟨204, "", "", none, ""⟩ = .ok .null :=
  ⟨((success_response_passthrough
      ⟨200, "application/json", "\x7b\x7d", some (.obj []), ""⟩ (.obj [])).2
      (by decide) (by decide) rfl rfl rfl).1,
    ((success_response_passthrough ⟨204, "", "", none, ""⟩ .null).1
      (by decide) (by decide) rfl).1⟩

/-- C6: find_one builds exactly the one request of list_documents (a
single network round trip, by delegation), and when the delegated call
returns a list it yields the first element for a non-empty list and
None for an empty one, in both clients. -/
theorem find_one_delegation (c : MaseDBClient) (a : AsyncMaseDBClient)
    (coll : String) (q : Option Json) (xs : List Json) (t : TransportResult) :
    c.find_one_req coll q = c.list_documents_req coll q ∧
    a.find_one_req coll q = a.list_documents_req coll q ∧
    (MaseDBClient.requestOutcome t = .ok (.arr xs) →
      MaseDBClient.find_one_result t = .ok (xs.headD .null)) ∧
    (AsyncMaseDBClient.requestOutcome t = .ok (.arr xs) →
      AsyncMaseDBClient.find_one_result t = .ok (xs.headD .null)) := by
  refine ⟨rfl, rfl, ?_, ?_⟩ <;> intro h
  · unfold MaseDBClient.find_one_result
    rw [h]
    cases xs with
    | nil => rfl
    | cons x xs => rfl
  · unfold AsyncMaseDBClient.find_one_result
    rw [h]
    cases xs with
    | nil => rfl
    | cons x xs => rfl

/-- C6 (witness): a delegated call returning a one-element list makes
find_one return that element. -/
theorem find_one_delegation_witness :
    MaseDBClient.find_one_result
        (.response ⟨200, "application/json", "[1]", some (.arr [.num 1]), ""⟩)
      = .ok (.num 1) :=
  (find_one_delegation (MaseDBClient.mkClient "k" "https://masedb.maseai.online")
    (AsyncMaseDBClient.mkClient "k" "https://masedb.maseai.online") "users" none
    [.num 1] (.response ⟨200, "application/json", "[1]", some (.arr [.num 1]), ""⟩)).2.2.1 rfl

/-- C7: insert_one and create_document issue the identical HTTP request
(method POST, path /api/ followed by the collection, body the document)
and return the same result, in both clients; insert_one is a direct
delegation to create_document. -/
theorem insert_one_equals_create_document (c : MaseDBClient) (a : AsyncMaseDBClient)
    (coll : String) (doc : Json) (t : TransportResult) :
    c.insert_one_req coll doc = c.create_document_req coll doc ∧
    (c.create_document_req coll doc).method = "POST" ∧
    (c.create_document_req coll doc).url = c.BASE_URL ++ ("/api/" ++ coll) ∧
    (c.create_document_req coll doc).jsonBody = some doc ∧
    MaseDBClient.insert_one_result t = MaseDBClient.create_document_result t ∧
    a.insert_one_req coll doc = a.create_document_req coll doc ∧
    (a.create_document_req coll doc).method = "POST" ∧
    (a.create_document_req coll doc).url = a.BASE_URL ++ ("/api/" ++ coll) ∧
    (a.create_document_req coll doc).jsonBody = some doc ∧
    AsyncMaseDBClient.insert_one_result t = AsyncMaseDBClient.create_document_result t :=
  ⟨rfl, rfl, rfl, rfl, rfl, rfl, rfl, rfl, rfl, rfl⟩

/-- C8: the blocking and non-blocking clients are functionally
equivalent over delivered HTTP responses: for the same constructor
arguments they build identical requests for every method of the
catalog, and for every delivered response they compute identical
results and identical raised errors; they differ only in scheduling
(and in what happens below the transport boundary, which this
equivalence does not quantify over). -/
theorem sync_async_equivalence
    (api base method endpoint name description coll docId txnId : String)
    (hd : Headers) (b q : Option Json) (doc upd : Json) (fields : List String)
    (r : HttpResponse) :
    MaseDBClient.handleResponse r = AsyncMaseDBClient.handleResponse r ∧
    MaseDBClient.requestOutcome (.response r) = AsyncMaseDBClient.requestOutcome (.response r) ∧
    (MaseDBClient.mkClient api base).buildRequest method endpoint hd b
      = (AsyncMaseDBClient.mkClient api base).buildRequest method endpoint hd b ∧
    (MaseDBClient.mkClient api base).list_collections_req
      = (AsyncMaseDBClient.mkClient api base).list_collections_req ∧
    (MaseDBClient.mkClient api base).create_collection_req name description
      = (AsyncMaseDBClient.mkClient api base).create_collection_req name description ∧
    (MaseDBClient.mkClient api base).get_collection_req name
      = (AsyncMaseDBClient.mkClient api base).get_collection_req name ∧
    (MaseDBClient.mkClient api base).delete_collection_req name
      = (AsyncMaseDBClient.mkClient api base).delete_collection_req name ∧
    (MaseDBClient.mkClient api base).list_documents_req coll q
      = (AsyncMaseDBClient.mkClient api base).list_documents_req coll q ∧
    (MaseDBClient.mkClient api base).create_document_req coll doc
      = (AsyncMaseDBClient.mkClient api base).create_document_req coll doc ∧
    (MaseDBClient.mkClient api base).insert_one_req coll doc
      = (AsyncMaseDBClient.mkClient api base).insert_one_req coll doc ∧
    (MaseDBClient.mkClient api base).get_document_req coll docId q
      = (AsyncMaseDBClient.mkClient api base).get_document_req coll docId q ∧
    (MaseDBClient.mkClient api base).update_document_req coll docId upd
      = (AsyncMaseDBClient.mkClient api base).update_document_req coll docId upd ∧
    (MaseDBClient.mkClient api base).delete_document_req coll docId
      = (AsyncMaseDBClient.mkClient api base).delete_document_req coll docId ∧
    (MaseDBClient.mkClient api base).create_index_req coll fields
      = (AsyncMaseDBClient.mkClient api base).create_index_req coll fields ∧
    (MaseDBClient.mkClient api base).list_indexes_req coll
      = (AsyncMaseDBClient.mkClient api base).list_indexes_req coll ∧
    (MaseDBClient.mkClient api base).start_transaction_req
      = (AsyncMaseDBClient.mkClient api base).start_transaction_req ∧
    (MaseDBClient.mkClient api base).commit_transaction_req txnId
      = (AsyncMaseDBClient.mkClient api base).commit_transaction_req txnId ∧
    (MaseDBClient.mkClient api base).rollback_transaction_req txnId
      = (AsyncMaseDBClient.mkClient api base).rollback_transaction_req txnId ∧
    (MaseDBClient.mkClient api base).get_transaction_status_req txnId
      = (AsyncMaseDBClient.mkClient api base).get_transaction_status_req txnId ∧
    (MaseDBClient.mkClient api base).get_stats_req
      = (AsyncMaseDBClient.mkClient api base).get_stats_req ∧
    (MaseDBClient.mkClient api base).get_detailed_stats_req
      = (AsyncMaseDBClient.mkClient api base).get_detailed_stats_req ∧
    (MaseDBClient.mkClient api base).find_one_req coll q
      = (AsyncMaseDBClient.mkClient api base).find_one_req coll q ∧
    MaseDBClient.find_one_result (.response r) = AsyncMaseDBClient.find_one_result (.response r) ∧
    MaseDBClient.insert_one_result (.response r)
      = AsyncMaseDBClient.insert_one_result (.response r) := by
  repeat' apply And.intro
  all_goals rfl

/-- C9: every request built by either client carries the X-API-Key
header set to the stored API key (itself exactly the key given at
construction, untransformed) and the Accept application/json header,
even when the caller supplies their own headers dict, whose entries for
those keys are overwritten. -/
theorem auth_headers_on_every_request (c : MaseDBClient) (a : AsyncMaseDBClient)
    (api base method endpoint : String) (hd : Headers) (b : Option Json) :
    dictGet? (c.buildRequest method endpoint hd b).headers "X-API-Key" = some c.api_key ∧
    dictGet? (c.buildRequest method endpoint hd b).headers "Accept"
      = some "application/json" ∧
    dictGet? (a.buildRequest method endpoint hd b).headers "X-API-Key" = some a.api_key ∧
    dictGet? (a.buildRequest method endpoint hd b).headers "Accept"
      = some "application/json" ∧
    (MaseDBClient.mkClient api base).api_key = api ∧
    (AsyncMaseDBClient.mkClient api base).api_key = api :=
  ⟨sync_headers_apiKey c method endpoint hd b,
    sync_headers_accept c method endpoint hd b,
    async_headers_apiKey a method endpoint hd b,
    async_headers_accept a method endpoint hd b, rfl, rfl⟩

/-- C10: trailing slashes of the base URL are stripped at construction,
so clients built from a base URL and from the same base URL followed by
any number of slashes build identical requests for every method and
endpoint; and the stored base URL never ends with a slash, so joining
it with an endpoint path starting with a single slash never produces a
double slash at the junction. -/
theorem base_url_normalization (api base method endpoint : String) (n : Nat)
    (hd : Headers) (b : Option Json) :
    (MaseDBClient.mkClient api (base ++ String.mk (List.replicate n '/'))).BASE_URL
      = (MaseDBClient.mkClient api base).BASE_URL ∧
    (MaseDBClient.mkClient api (base ++ String.mk (List.replicate n '/'))).buildRequest
        method endpoint hd b
      = (MaseDBClient.mkClient api base).buildRequest method endpoint hd b ∧
    (AsyncMaseDBClient.mkClient api (base ++ String.mk (List.replicate n '/'))).buildRequest
        method endpoint hd b
      = (AsyncMaseDBClient.mkClient api base).buildRequest method endpoint hd b ∧
    endsWithSlash (MaseDBClient.mkClient api base).BASE_URL = false ∧
    endsWithSlash (AsyncMaseDBClient.mkClient api base).BASE_URL = false := by
  have hcl : MaseDBClient.mkClient api (base ++ String.mk (List.replicate n '/'))
      = MaseDBClient.mkClient api base := by
    unfold MaseDBClient.mkClient
    rw [rstripSlash_append_slashes]
  have hacl : AsyncMaseDBClient.mkClient api (base ++ String.mk (List.replicate n '/'))
      = AsyncMaseDBClient.mkClient api base := by
    unfold AsyncMaseDBClient.mkClient
    rw [rstripSlash_append_slashes]
  exact ⟨congrArg MaseDBClient.BASE_URL hcl, by rw [hcl], by rw [hacl],
    endsWithSlash_rstripSlash base, endsWithSlash_rstripSlash base⟩
